import Mathlib

/-
Shallow embedding of the NILE scoring engine
(src/backend/nile/services/nile_scorer.py).

Python floats are modelled as rationals.  Python dictionaries appearing in
the source are modelled as follows: the weight mapping becomes an
association list with string keys, whose subscript lookup is an Option
(a missing key, which raises KeyError in Python, becomes none); the
slither-finding and pattern-match records, of which the code only reads
the keys "severity" and "confidence" via dict.get with a default, become
one-field structures whose field is an Option (absent key = none).
Python round(x, 2) is modelled with Mathlib round at two decimal places;
the engine only rounds values whose claims never sit on a half tie, so
the half-tie convention is immaterial to every theorem below.
-/

namespace NileScorer

structure NameInputs where
  is_verified : Bool
  audit_count : Int
  age_days : Int
  team_identified : Bool
  ecosystem_score : ℚ
  deriving DecidableEq

structure ImageInputs where
  open_critical : Int
  open_high : Int
  open_medium : Int
  avg_patch_time_days : Option ℚ
  trend : ℚ
  deriving DecidableEq

structure SlitherFinding where
  severity : Option String
  deriving DecidableEq

structure PatternMatch where
  confidence : Option ℚ
  deriving DecidableEq

structure LikenessInputs where
  slither_findings : List SlitherFinding
  evmbench_pattern_matches : List PatternMatch
  deriving DecidableEq

structure EssenceInputs where
  test_coverage_pct : ℚ
  avg_cyclomatic_complexity : ℚ
  has_proxy_pattern : Bool
  has_admin_keys : Bool
  has_timelock : Bool
  external_call_count : Int
  deriving DecidableEq

structure NameDetails where
  source_verified : ℚ
  audit_history : ℚ
  maturity : ℚ
  team_identification : ℚ
  ecosystem_presence : ℚ
  deriving DecidableEq

structure ImageDetails where
  base_from_vulns : ℚ
  patch_cadence_bonus : ℚ
  trend_adjustment : ℚ
  open_critical : Int
  open_high : Int
  open_medium : Int
  deriving DecidableEq

structure LikenessDetails where
  slither_deductions : ℚ
  pattern_match_deductions : ℚ
  slither_finding_count : Nat
  evmbench_match_count : Nat
  deriving DecidableEq

structure EssenceDetails where
  test_coverage : ℚ
  complexity : ℚ
  upgrade_risk : ℚ
  dependency_risk : ℚ
  deriving DecidableEq

structure NileDetails where
  name : NameDetails
  image : ImageDetails
  likeness : LikenessDetails
  essence : EssenceDetails
  deriving DecidableEq

structure NileScoreResult where
  total_score : ℚ
  name_score : ℚ
  image_score : ℚ
  likeness_score : ℚ
  essence_score : ℚ
  grade : String
  details : NileDetails
  deriving DecidableEq

def GRADE_MAP : List (ℚ × String) :=
  [(90, "A+"), (80, "A"), (70, "B"), (60, "C"), (50, "D"), (0, "F")]

def _clamp (value lo hi : ℚ) : ℚ :=
  max lo (min hi value)

def compute_name_score (inputs : NameInputs) : ℚ × NameDetails :=
  let source_score : ℚ := if inputs.is_verified then 20 else 0
  let audit_score : ℚ := min 20 ((inputs.audit_count : ℚ) * (667 / 100))
  let maturity_score : ℚ :=
    if inputs.age_days > 0 then min 20 ((inputs.age_days : ℚ) / 365 * 20) else 0
  let team_score : ℚ := if inputs.team_identified then 20 else 5
  let ecosystem : ℚ := min 20 inputs.ecosystem_score
  let total := _clamp (source_score + audit_score + maturity_score + team_score + ecosystem) 0 100
  (total, ⟨source_score, audit_score, maturity_score, team_score, ecosystem⟩)

def compute_image_score (inputs : ImageInputs) : ℚ × ImageDetails :=
  let base : ℚ :=
    100 - (inputs.open_critical : ℚ) * 25 - (inputs.open_high : ℚ) * 15
      - (inputs.open_medium : ℚ) * 5
  let patch_bonus : ℚ :=
    match inputs.avg_patch_time_days with
    | none => 0
    | some d => max 0 (10 - d)
  let total := _clamp (base + patch_bonus + inputs.trend) 0 100
  (total, ⟨base, patch_bonus, inputs.trend,
    inputs.open_critical, inputs.open_high, inputs.open_medium⟩)

def severity_penalty (sev : String) : ℚ :=
  if sev = "high" then 15
  else if sev = "medium" then 8
  else if sev = "low" then 3
  else if sev = "info" then 0
  else 0

def slitherPenalty (finding : SlitherFinding) : ℚ :=
  severity_penalty (finding.severity.getD "info")

def patternPenalty (m : PatternMatch) : ℚ :=
  let confidence := m.confidence.getD 0
  if confidence > 8 / 10 then 20
  else if confidence > 6 / 10 then 10
  else if confidence > 4 / 10 then 5
  else 0

def compute_likeness_score (inputs : LikenessInputs) : ℚ × LikenessDetails :=
  let slither_deductions := (inputs.slither_findings.map slitherPenalty).sum
  let pattern_deductions := (inputs.evmbench_pattern_matches.map patternPenalty).sum
  let total := _clamp (100 - slither_deductions - pattern_deductions) 0 100
  (total, ⟨slither_deductions, pattern_deductions,
    inputs.slither_findings.length, inputs.evmbench_pattern_matches.length⟩)

def compute_essence_score (inputs : EssenceInputs) : ℚ × EssenceDetails :=
  let coverage : ℚ := min 25 (inputs.test_coverage_pct * (25 / 100))
  let complexity_score : ℚ :=
    min 25 (max 0 (25 - (inputs.avg_cyclomatic_complexity - 5) * (5 / 2)))
  let upgrade_score : ℚ :=
    25 - (if inputs.has_proxy_pattern then 10 else 0)
      - (if inputs.has_admin_keys then 5 else 0)
      - (if inputs.has_timelock then 0 else 5)
  let dep_score : ℚ := max 0 (25 - (inputs.external_call_count : ℚ) * 2)
  let total := _clamp (coverage + complexity_score + upgrade_score + dep_score) 0 100
  (total, ⟨coverage, complexity_score, upgrade_score, dep_score⟩)

def round2 (x : ℚ) : ℚ :=
  (round (x * 100) : ℚ) / 100

def gradeFrom (bands : List (ℚ × String)) (total : ℚ) : String :=
  match bands with
  | [] => "F"
  | (threshold, g) :: rest => if threshold ≤ total then g else gradeFrom rest total

def gradeOf (total : ℚ) : String :=
  gradeFrom GRADE_MAP total

def defaultWeights : List (String × ℚ) :=
  [("name", 1/4), ("image", 1/4), ("likeness", 1/4), ("essence", 1/4)]

def lookupWeight (w : List (String × ℚ)) (k : String) : Option ℚ :=
  (w.find? (fun p => p.1 == k)).map (fun p => p.2)

def compute_nile_score (name_inputs : NameInputs) (image_inputs : ImageInputs)
    (likeness_inputs : LikenessInputs) (essence_inputs : EssenceInputs)
    (weights : Option (List (String × ℚ))) : Option NileScoreResult :=
  let w : List (String × ℚ) :=
    match weights with
    | none => defaultWeights
    | some m => if m.isEmpty then defaultWeights else m
  let ns := compute_name_score name_inputs
  let is := compute_image_score image_inputs
  let ls := compute_likeness_score likeness_inputs
  let es := compute_essence_score essence_inputs
  match lookupWeight w "name", lookupWeight w "image",
      lookupWeight w "likeness", lookupWeight w "essence" with
  | some wn, some wi, some wl, some we =>
    let total := round2 (ns.1 * wn + is.1 * wi + ls.1 * wl + es.1 * we)
    let grade := gradeOf total
    some ⟨total, round2 ns.1, round2 is.1, round2 ls.1, round2 es.1, grade,
      ⟨ns.2, is.2, ls.2, es.2⟩⟩
  | _, _, _, _ => none

/-- Modelled from the spec: the total score as the specification words it,
namely the weight-sum of the four sub-scores clamped to the range 0 to 100
and then rounded to two decimals.  To be compared with the total that
compute_nile_score actually produces, which applies no clamp. -/
def spec_total_score (name_inputs : NameInputs) (image_inputs : ImageInputs)
    (likeness_inputs : LikenessInputs) (essence_inputs : EssenceInputs)
    (wn wi wl we : ℚ) : ℚ :=
  round2 (_clamp ((compute_name_score name_inputs).1 * wn
    + (compute_image_score image_inputs).1 * wi
    + (compute_likeness_score likeness_inputs).1 * wl
    + (compute_essence_score essence_inputs).1 * we) 0 100)

lemma _clamp_mono {a b lo hi : ℚ} (h : a ≤ b) : _clamp a lo hi ≤ _clamp b lo hi :=
  max_le_max le_rfl (min_le_min le_rfl h)

lemma _clamp_nonneg (v : ℚ) : 0 ≤ _clamp v 0 100 :=
  le_max_left _ _

lemma _clamp_le_hundred (v : ℚ) : _clamp v 0 100 ≤ 100 :=
  max_le (by norm_num) (min_le_left _ _)

lemma round_le_round {x y : ℚ} (h : x ≤ y) : round x ≤ round y := by
  rw [round_eq, round_eq]
  exact Int.floor_mono (by linarith)

lemma round2_nonneg {x : ℚ} (h : 0 ≤ x) : 0 ≤ round2 x := by
  have h1 : (0 : ℤ) ≤ round (x * 100) := by
    have h2 := round_le_round (show (0 : ℚ) ≤ x * 100 by nlinarith)
    simpa using h2
  unfold round2
  have h3 : (0 : ℚ) ≤ (round (x * 100) : ℚ) := by exact_mod_cast h1
  linarith

lemma round2_le_hundred {x : ℚ} (h : x ≤ 100) : round2 x ≤ 100 := by
  have h1 : round (x * 100) ≤ round ((10000 : ℚ)) := round_le_round (by nlinarith)
  have h2 : round ((10000 : ℚ)) = 10000 := by
    rw [show ((10000 : ℚ)) = ((10000 : ℤ) : ℚ) by norm_num, round_intCast]
  rw [h2] at h1
  unfold round2
  rw [div_le_iff₀ (by norm_num)]
  have h3 : (round (x * 100) : ℚ) ≤ 10000 := by exact_mod_cast h1
  linarith

lemma name_score_bounds (i : NameInputs) :
    0 ≤ (compute_name_score i).1 ∧ (compute_name_score i).1 ≤ 100 := by
  simp only [compute_name_score]
  exact ⟨_clamp_nonneg _, _clamp_le_hundred _⟩

lemma image_score_bounds (i : ImageInputs) :
    0 ≤ (compute_image_score i).1 ∧ (compute_image_score i).1 ≤ 100 := by
  simp only [compute_image_score]
  exact ⟨_clamp_nonneg _, _clamp_le_hundred _⟩

lemma likeness_score_bounds (i : LikenessInputs) :
    0 ≤ (compute_likeness_score i).1 ∧ (compute_likeness_score i).1 ≤ 100 := by
  simp only [compute_likeness_score]
  exact ⟨_clamp_nonneg _, _clamp_le_hundred _⟩

lemma essence_score_bounds (i : EssenceInputs) :
    0 ≤ (compute_essence_score i).1 ∧ (compute_essence_score i).1 ≤ 100 := by
  simp only [compute_essence_score]
  exact ⟨_clamp_nonneg _, _clamp_le_hundred _⟩

lemma compute_nile_score_full_weights (ni : NameInputs) (ii : ImageInputs)
    (li : LikenessInputs) (ei : EssenceInputs) (wn wi wl we : ℚ) :
    compute_nile_score ni ii li ei
        (some [("name", wn), ("image", wi), ("likeness", wl), ("essence", we)]) =
      some ⟨round2 ((compute_name_score ni).1 * wn + (compute_image_score ii).1 * wi
          + (compute_likeness_score li).1 * wl + (compute_essence_score ei).1 * we),
        round2 (compute_name_score ni).1, round2 (compute_image_score ii).1,
        round2 (compute_likeness_score li).1, round2 (compute_essence_score ei).1,
        gradeOf (round2 ((compute_name_score ni).1 * wn + (compute_image_score ii).1 * wi
          + (compute_likeness_score li).1 * wl + (compute_essence_score ei).1 * we)),
        ⟨(compute_name_score ni).2, (compute_image_score ii).2,
          (compute_likeness_score li).2, (compute_essence_score ei).2⟩⟩ := by
  simp [compute_nile_score, lookupWeight, List.find?]

/-- C4: for a single pattern match, compute_likeness_score uses strictly-greater
tier comparisons, so confidence exactly 8/10 incurs a 10-point penalty (score 90),
exactly 6/10 incurs 5, and exactly 4/10 incurs 0. -/
theorem c4_tier_boundaries :
    (compute_likeness_score ⟨[], [⟨some (8/10)⟩]⟩).2.pattern_match_deductions = 10
    ∧ (compute_likeness_score ⟨[], [⟨some (8/10)⟩]⟩).1 = 90
    ∧ (compute_likeness_score ⟨[], [⟨some (6/10)⟩]⟩).2.pattern_match_deductions = 5
    ∧ (compute_likeness_score ⟨[], [⟨some (6/10)⟩]⟩).1 = 95
    ∧ (compute_likeness_score ⟨[], [⟨some (4/10)⟩]⟩).2.pattern_match_deductions = 0
    ∧ (compute_likeness_score ⟨[], [⟨some (4/10)⟩]⟩).1 = 100 := by
  refine ⟨?_, ?_, ?_, ?_, ?_, ?_⟩ <;>
    · simp [compute_likeness_score, patternPenalty, _clamp, min_def, max_def]
      norm_num

/-- C6: compute_likeness_score is total (its slither deduction is the plain sum of
per-finding penalties), and each slither finding contributes 15 for severity high,
8 for medium, 3 for low, 0 for info, 0 for a missing severity key, and 0 for any
unrecognized severity string. -/
theorem c6_severity_penalties :
    (∀ li : LikenessInputs, (compute_likeness_score li).2.slither_deductions
        = (li.slither_findings.map slitherPenalty).sum)
    ∧ slitherPenalty ⟨some "high"⟩ = 15
    ∧ slitherPenalty ⟨some "medium"⟩ = 8
    ∧ slitherPenalty ⟨some "low"⟩ = 3
    ∧ slitherPenalty ⟨some "info"⟩ = 0
    ∧ slitherPenalty ⟨none⟩ = 0
    ∧ (∀ s : String, s ≠ "high" → s ≠ "medium" → s ≠ "low" →
        slitherPenalty ⟨some s⟩ = 0) := by
  refine ⟨fun li => rfl, by decide, by decide, by decide, by decide, by decide, ?_⟩
  intro s h1 h2 h3
  simp only [slitherPenalty, severity_penalty, Option.getD_some]
  rw [if_neg h1, if_neg h2, if_neg h3]
  split_ifs <;> rfl

/-- C6 witness: an unrecognized severity string contributes a zero penalty. -/
theorem c6_severity_penalties_witness : slitherPenalty ⟨some "critical"⟩ = 0 :=
  c6_severity_penalties.2.2.2.2.2.2 "critical" (by decide) (by decide) (by decide)

/-- C9: the complexity component of compute_essence_score equals
clamp(25 - (avg_cyclomatic_complexity - 5) * 5/2, 0, 25); it is exactly 25 for
avg_cyclomatic_complexity at or below 5 and exactly 0 at 15 or above. -/
theorem c9_complexity_component (i : EssenceInputs) :
    (compute_essence_score i).2.complexity
      = _clamp (25 - (i.avg_cyclomatic_complexity - 5) * (5/2)) 0 25
    ∧ (i.avg_cyclomatic_complexity ≤ 5 → (compute_essence_score i).2.complexity = 25)
    ∧ (15 ≤ i.avg_cyclomatic_complexity → (compute_essence_score i).2.complexity = 0) := by
  simp only [compute_essence_score, _clamp]
  refine ⟨?_, ?_, ?_⟩
  · simp only [min_def, max_def]
    split_ifs <;> linarith
  · intro h
    simp only [min_def, max_def]
    split_ifs <;> linarith
  · intro h
    simp only [min_def, max_def]
    split_ifs <;> linarith

/-- C9 witness: at avg_cyclomatic_complexity exactly 5 the complexity component
is exactly 25. -/
theorem c9_complexity_component_witness :
    (compute_essence_score ⟨0, 5, false, false, true, 0⟩).2.complexity = 25 :=
  (c9_complexity_component _).2.1 (by norm_num)

/-- C10: under the documented input invariants (audit_count and ecosystem_score
nonnegative), the Name sub-score is at least 5, because the team_identification
factor contributes 5 even when team_identified is false and no other factor can
then be negative. -/
theorem c10_name_floor (i : NameInputs) (h1 : 0 ≤ i.audit_count)
    (h2 : 0 ≤ i.ecosystem_score) :
    5 ≤ (compute_name_score i).1
    ∧ (compute_name_score ⟨i.is_verified, i.audit_count, i.age_days, false,
        i.ecosystem_score⟩).2.team_identification = 5 := by
  constructor
  · simp only [compute_name_score, _clamp]
    have hc : (0 : ℚ) ≤ (i.audit_count : ℚ) := by exact_mod_cast h1
    have hsrc : (0 : ℚ) ≤ (if i.is_verified then (20 : ℚ) else 0) := by
      split_ifs <;> norm_num
    have haud : (0 : ℚ) ≤ min 20 ((i.audit_count : ℚ) * (667 / 100)) :=
      le_min (by norm_num) (mul_nonneg hc (by norm_num))
    have hmat : (0 : ℚ) ≤
        (if i.age_days > 0 then min 20 ((i.age_days : ℚ) / 365 * 20) else 0) := by
      split_ifs with h
      · refine le_min (by norm_num) ?_
        have hd : (0 : ℚ) ≤ (i.age_days : ℚ) := by exact_mod_cast le_of_lt h
        have := div_nonneg hd (by norm_num : (0:ℚ) ≤ 365)
        nlinarith
      · exact le_refl 0
    have htm : (5 : ℚ) ≤ (if i.team_identified then (20 : ℚ) else 5) := by
      split_ifs <;> norm_num
    have heco : (0 : ℚ) ≤ min 20 i.ecosystem_score := le_min (by norm_num) h2
    have hS : (5 : ℚ) ≤ (if i.is_verified then (20 : ℚ) else 0)
        + min 20 ((i.audit_count : ℚ) * (667 / 100))
        + (if i.age_days > 0 then min 20 ((i.age_days : ℚ) / 365 * 20) else 0)
        + (if i.team_identified then (20 : ℚ) else 5)
        + min 20 i.ecosystem_score := by linarith
    exact le_trans (le_min (by norm_num) hS) (le_max_right _ _)
  · simp [compute_name_score]

/-- C10 witness: on a fully defaulted valid input the Name sub-score is at
least 5 and the unidentified-team factor is exactly 5. -/
theorem c10_name_floor_witness :
    5 ≤ (compute_name_score ⟨false, 0, 0, false, 0⟩).1
    ∧ (compute_name_score ⟨false, 0, 0, false, 0⟩).2.team_identification = 5 :=
  c10_name_floor ⟨false, 0, 0, false, 0⟩ (by norm_num)
    (show (0 : ℚ) ≤ 0 from le_refl 0)

/-- C3 counterexample: the source multiplies audit_count by the literal 6.67
(= 667/100), not by 20/3, so at audit_count = 2 the audit_history contribution
is 667/50 = 13.34, which differs from min(20, 2 * 20/3) = 40/3. -/
theorem c3_counterexample :
    (compute_name_score ⟨false, 2, 0, false, 0⟩).2.audit_history = 667/50
    ∧ (667/50 : ℚ) ≠ min 20 (2 * (20/3)) := by
  constructor
  · simp [compute_name_score, min_def]
    norm_num
  · rw [min_def]
    norm_num

/-- C3 amended: the audit_history contribution equals
min(20, audit_count * 6.67); at audit_count = 2 it is 13.34 (= 667/50), and for
audit_count at least 3 it is exactly 20. -/
theorem c3_audit_history (i : NameInputs) :
    (compute_name_score i).2.audit_history = min 20 ((i.audit_count : ℚ) * (667/100))
    ∧ (i.audit_count = 2 → (compute_name_score i).2.audit_history = 667/50)
    ∧ (3 ≤ i.audit_count → (compute_name_score i).2.audit_history = 20) := by
  refine ⟨rfl, ?_, ?_⟩
  · intro h
    simp [compute_name_score, h, min_def]
    norm_num
  · intro h
    have h3 : (3 : ℚ) ≤ (i.audit_count : ℚ) := by exact_mod_cast h
    simp only [compute_name_score]
    apply min_eq_left
    nlinarith

/-- C3 witness: at audit_count = 4 the audit_history contribution is exactly 20. -/
theorem c3_audit_history_witness :
    (compute_name_score ⟨false, 4, 0, false, 0⟩).2.audit_history = 20 :=
  (c3_audit_history _).2.2 (by norm_num)

/-- C7: with all else equal, increasing audit_count never decreases the Name
sub-score, increasing test_coverage_pct never decreases the Essence sub-score,
and decreasing open_critical never decreases the Image sub-score. -/
theorem c7_monotonicity :
    (∀ (iv td : Bool) (ad c c' : Int) (es : ℚ), c ≤ c' →
      (compute_name_score ⟨iv, c, ad, td, es⟩).1
        ≤ (compute_name_score ⟨iv, c', ad, td, es⟩).1)
    ∧ (∀ (p p' acc : ℚ) (pr ak tl : Bool) (ec : Int), p ≤ p' →
      (compute_essence_score ⟨p, acc, pr, ak, tl, ec⟩).1
        ≤ (compute_essence_score ⟨p', acc, pr, ak, tl, ec⟩).1)
    ∧ (∀ (c c' oh om : Int) (pt : Option ℚ) (tr : ℚ), c' ≤ c →
      (compute_image_score ⟨c, oh, om, pt, tr⟩).1
        ≤ (compute_image_score ⟨c', oh, om, pt, tr⟩).1) := by
  refine ⟨?_, ?_, ?_⟩
  · intro iv td ad c c' es h
    simp only [compute_name_score]
    apply _clamp_mono
    have hcast : (c : ℚ) ≤ (c' : ℚ) := by exact_mod_cast h
    have haud : min 20 ((c : ℚ) * (667 / 100)) ≤ min 20 ((c' : ℚ) * (667 / 100)) := by
      apply min_le_min le_rfl
      nlinarith
    linarith
  · intro p p' acc pr ak tl ec h
    simp only [compute_essence_score]
    apply _clamp_mono
    have hcov : min 25 (p * (25 / 100)) ≤ min 25 (p' * (25 / 100)) := by
      apply min_le_min le_rfl
      nlinarith
    linarith
  · intro c c' oh om pt tr h
    simp only [compute_image_score]
    apply _clamp_mono
    have hcast : (c' : ℚ) ≤ (c : ℚ) := by exact_mod_cast h
    nlinarith

/-- C7 witness: each monotonicity statement at a concrete pair of inputs. -/
theorem c7_monotonicity_witness :
    (compute_name_score ⟨false, 0, 0, false, 0⟩).1
      ≤ (compute_name_score ⟨false, 2, 0, false, 0⟩).1
    ∧ (compute_essence_score ⟨0, 5, false, false, true, 0⟩).1
      ≤ (compute_essence_score ⟨50, 5, false, false, true, 0⟩).1
    ∧ (compute_image_score ⟨1, 0, 0, none, 0⟩).1
      ≤ (compute_image_score ⟨0, 0, 0, none, 0⟩).1 :=
  ⟨c7_monotonicity.1 false false 0 0 2 0 (by norm_num),
    c7_monotonicity.2.1 0 50 5 false false true 0 (by norm_num),
    c7_monotonicity.2.2 1 0 0 0 none 0 (by norm_num)⟩

/-- C8: permuting the slither_findings list or the evmbench_pattern_matches list
leaves the compute_likeness_score result (score and breakdown) unchanged. -/
theorem c8_order_independence (s s' : List SlitherFinding) (p p' : List PatternMatch)
    (hs : s.Perm s') (hp : p.Perm p') :
    compute_likeness_score ⟨s, p⟩ = compute_likeness_score ⟨s', p'⟩ := by
  simp only [compute_likeness_score]
  rw [(hs.map slitherPenalty).sum_eq, (hp.map patternPenalty).sum_eq,
    hs.length_eq, hp.length_eq]

/-- C8 witness: a concrete transposition of both lists gives an identical result. -/
theorem c8_order_independence_witness :
    compute_likeness_score ⟨[⟨some "high"⟩, ⟨some "low"⟩], [⟨some (9/10)⟩, ⟨some (1/2)⟩]⟩
      = compute_likeness_score
          ⟨[⟨some "low"⟩, ⟨some "high"⟩], [⟨some (1/2)⟩, ⟨some (9/10)⟩]⟩ :=
  c8_order_independence _ _ _ _ (List.Perm.swap _ _ _) (List.Perm.swap _ _ _)

/-- C5: the grade mapping takes the first matching threshold in descending order
with inclusive lower bounds: a total of exactly 90 yields A+ and not A; the grade
is always one of A+, A, B, C, D, F; and with default weights, four sub-scores of
50 yield a total of 50 and grade D (checked on concrete inputs whose four
sub-scores all equal 50). -/
theorem c5_grade_mapping :
    gradeOf 90 = "A+"
    ∧ (∀ t : ℚ, gradeOf t = "A+" ∨ gradeOf t = "A" ∨ gradeOf t = "B"
        ∨ gradeOf t = "C" ∨ gradeOf t = "D" ∨ gradeOf t = "F")
    ∧ ((compute_nile_score ⟨true, 0, 0, true, 10⟩ ⟨2, 0, 0, none, 0⟩
        ⟨[], [⟨some (9/10)⟩, ⟨some (9/10)⟩, ⟨some (7/10)⟩]⟩
        ⟨100, 15, true, true, true, 5⟩ none).map NileScoreResult.name_score = some 50)
    ∧ ((compute_nile_score ⟨true, 0, 0, true, 10⟩ ⟨2, 0, 0, none, 0⟩
        ⟨[], [⟨some (9/10)⟩, ⟨some (9/10)⟩, ⟨some (7/10)⟩]⟩
        ⟨100, 15, true, true, true, 5⟩ none).map NileScoreResult.image_score = some 50)
    ∧ ((compute_nile_score ⟨true, 0, 0, true, 10⟩ ⟨2, 0, 0, none, 0⟩
        ⟨[], [⟨some (9/10)⟩, ⟨some (9/10)⟩, ⟨some (7/10)⟩]⟩
        ⟨100, 15, true, true, true, 5⟩ none).map NileScoreResult.likeness_score = some 50)
    ∧ ((compute_nile_score ⟨true, 0, 0, true, 10⟩ ⟨2, 0, 0, none, 0⟩
        ⟨[], [⟨some (9/10)⟩, ⟨some (9/10)⟩, ⟨some (7/10)⟩]⟩
        ⟨100, 15, true, true, true, 5⟩ none).map NileScoreResult.essence_score = some 50)
    ∧ ((compute_nile_score ⟨true, 0, 0, true, 10⟩ ⟨2, 0, 0, none, 0⟩
        ⟨[], [⟨some (9/10)⟩, ⟨some (9/10)⟩, ⟨some (7/10)⟩]⟩
        ⟨100, 15, true, true, true, 5⟩ none).map NileScoreResult.total_score = some 50)
    ∧ ((compute_nile_score ⟨true, 0, 0, true, 10⟩ ⟨2, 0, 0, none, 0⟩
        ⟨[], [⟨some (9/10)⟩, ⟨some (9/10)⟩, ⟨some (7/10)⟩]⟩
        ⟨100, 15, true, true, true, 5⟩ none).map NileScoreResult.grade = some "D") := by
  refine ⟨?_, ?_, ?_, ?_, ?_, ?_, ?_, ?_⟩
  · simp [gradeOf, gradeFrom, GRADE_MAP]
  · intro t
    simp only [gradeOf, gradeFrom, GRADE_MAP]
    split_ifs <;> simp
  all_goals
    simp [compute_nile_score, compute_name_score, compute_image_score,
      compute_likeness_score, compute_essence_score, _clamp, round2, gradeOf,
      gradeFrom, GRADE_MAP, defaultWeights, lookupWeight, patternPenalty,
      List.find?, min_def, max_def]
    norm_num [round_eq]

/-- C2 counterexample: a nonempty weights mapping that lacks some of the four
keys does not fall back to 0.25 for the missing keys; the lookup fails (a
KeyError in the source, the none result in this embedding). -/
theorem c2_counterexample :
    compute_nile_score ⟨false, 0, 0, false, 0⟩ ⟨0, 0, 0, none, 0⟩ ⟨[], []⟩
      ⟨0, 5, false, false, true, 0⟩ (some [("name", 1/2)]) = none := by
  simp [compute_nile_score, lookupWeight, List.find?]

/-- C2 amended: all four weights fall back to 0.25 only when the weights mapping
is absent (None) or empty; a mapping containing all four keys is used as given
and the computation then succeeds. -/
theorem c2_weight_fallback :
    (∀ (ni : NameInputs) (ii : ImageInputs) (li : LikenessInputs) (ei : EssenceInputs),
      compute_nile_score ni ii li ei none
        = compute_nile_score ni ii li ei (some defaultWeights))
    ∧ (∀ (ni : NameInputs) (ii : ImageInputs) (li : LikenessInputs) (ei : EssenceInputs),
      compute_nile_score ni ii li ei (some [])
        = compute_nile_score ni ii li ei none)
    ∧ (∀ (ni : NameInputs) (ii : ImageInputs) (li : LikenessInputs) (ei : EssenceInputs)
        (wn wi wl we : ℚ),
      (compute_nile_score ni ii li ei
          (some [("name", wn), ("image", wi), ("likeness", wl), ("essence", we)])).isSome
        = true) := by
  refine ⟨fun ni ii li ei => rfl, fun ni ii li ei => rfl, fun ni ii li ei wn wi wl we => ?_⟩
  rw [compute_nile_score_full_weights]
  rfl

/-- C1 counterexample: the source never clamps the weighted total.  With every
weight set to 1 and all-default inputs, the four sub-scores are 5, 100, 100 and
75, so compute_nile_score returns total_score = 280, while the spec formula
(clamp to 0..100, then round) gives 100; in particular the total is not
always within 0..100. -/
theorem c1_counterexample :
    ((compute_nile_score ⟨false, 0, 0, false, 0⟩ ⟨0, 0, 0, none, 0⟩ ⟨[], []⟩
        ⟨0, 5, false, false, true, 0⟩
        (some [("name", 1), ("image", 1), ("likeness", 1), ("essence", 1)])).map
      NileScoreResult.total_score = some 280)
    ∧ spec_total_score ⟨false, 0, 0, false, 0⟩ ⟨0, 0, 0, none, 0⟩ ⟨[], []⟩
        ⟨0, 5, false, false, true, 0⟩ 1 1 1 1 = 100
    ∧ ¬ ((280 : ℚ) ≤ 100) := by
  refine ⟨?_, ?_, by norm_num⟩
  · simp [compute_nile_score, compute_name_score, compute_image_score,
      compute_likeness_score, compute_essence_score, _clamp, round2, gradeOf,
      gradeFrom, GRADE_MAP, lookupWeight, List.find?, min_def, max_def]
    norm_num [round_eq]
  · simp [spec_total_score, compute_name_score, compute_image_score,
      compute_likeness_score, compute_essence_score, _clamp, round2,
      min_def, max_def]
    norm_num [round_eq]

/-- C1 amended: for any weights mapping containing all four keys, total_score is
the weight-sum of the four sub-scores rounded to 2 decimals, with no clamp
applied; whenever the four weights are nonnegative and sum to at most 1 (the
default weights included), the total lies in the range 0 to 100. -/
theorem c1_total_score (ni : NameInputs) (ii : ImageInputs) (li : LikenessInputs)
    (ei : EssenceInputs) (wn wi wl we : ℚ) (hn : 0 ≤ wn) (hi : 0 ≤ wi)
    (hl : 0 ≤ wl) (he : 0 ≤ we) (hsum : wn + wi + wl + we ≤ 1) :
    ∃ r : NileScoreResult,
      compute_nile_score ni ii li ei
          (some [("name", wn), ("image", wi), ("likeness", wl), ("essence", we)])
        = some r
      ∧ r.total_score = round2 ((compute_name_score ni).1 * wn
          + (compute_image_score ii).1 * wi + (compute_likeness_score li).1 * wl
          + (compute_essence_score ei).1 * we)
      ∧ 0 ≤ r.total_score ∧ r.total_score ≤ 100 := by
  refine ⟨_, compute_nile_score_full_weights ni ii li ei wn wi wl we, rfl, ?_, ?_⟩
  · apply round2_nonneg
    have h1 := mul_nonneg (name_score_bounds ni).1 hn
    have h2 := mul_nonneg (image_score_bounds ii).1 hi
    have h3 := mul_nonneg (likeness_score_bounds li).1 hl
    have h4 := mul_nonneg (essence_score_bounds ei).1 he
    linarith
  · apply round2_le_hundred
    have h1 := mul_le_mul_of_nonneg_right (name_score_bounds ni).2 hn
    have h2 := mul_le_mul_of_nonneg_right (image_score_bounds ii).2 hi
    have h3 := mul_le_mul_of_nonneg_right (likeness_score_bounds li).2 hl
    have h4 := mul_le_mul_of_nonneg_right (essence_score_bounds ei).2 he
    linarith

/-- C1 witness: on all-default inputs with the default 0.25 weights spelled
explicitly, the amended statement holds concretely. -/
theorem c1_total_score_witness :
    ∃ r : NileScoreResult,
      compute_nile_score ⟨false, 0, 0, false, 0⟩ ⟨0, 0, 0, none, 0⟩ ⟨[], []⟩
          ⟨0, 5, false, false, true, 0⟩
          (some [("name", 1/4), ("image", 1/4), ("likeness", 1/4), ("essence", 1/4)])
        = some r
      ∧ r.total_score = round2
          ((compute_name_score ⟨false, 0, 0, false, 0⟩).1 * (1/4)
            + (compute_image_score ⟨0, 0, 0, none, 0⟩).1 * (1/4)
            + (compute_likeness_score ⟨[], []⟩).1 * (1/4)
            + (compute_essence_score ⟨0, 5, false, false, true, 0⟩).1 * (1/4))
      ∧ 0 ≤ r.total_score ∧ r.total_score ≤ 100 :=
  c1_total_score ⟨false, 0, 0, false, 0⟩ ⟨0, 0, 0, none, 0⟩ ⟨[], []⟩
    ⟨0, 5, false, false, true, 0⟩ (1/4) (1/4) (1/4) (1/4)
    (by norm_num) (by norm_num) (by norm_num) (by norm_num) (by norm_num)

end NileScorer
